import Mathlib

/-!
Shallow embedding of the risk-evaluation pipeline of the `risk-trajectory`
repository (`src/risk_engine.py` and `src/backend-python/app/risk_engine.py`):
threshold profile resolution, the rolling window rate computation, the
level/score classifier, and rule-based outcome inference.

Python floats are modelled as rationals (ℚ); all numeric constants in the
source are exactly representable. Reason strings are modelled as an inductive
type `Reason` whose constructors carry the numeric values interpolated into
the Python f-strings: two reasons are equal in the model exactly when the
corresponding formatted strings are equal, because each reason format has a
distinct fixed textual skeleton and within one format the interpolated values
at any comparison site are built from the same expressions as at the append
site.
-/

namespace RiskTraj

/-- A point-in-time vitals measurement (`v` dict in the source). -/
structure Vitals where
  heart_rate : ℚ
  bp_systolic : ℚ
  bp_diastolic : ℚ
  oxygen_saturation : ℚ
  temperature : ℚ
  deriving DecidableEq, Repr

/-- The per-minute rates dict produced by `RollingWindow.rates_per_min`. -/
structure Rates where
  heart_rate : ℚ
  bp_systolic : ℚ
  oxygen_saturation : ℚ
  temperature : ℚ
  deriving DecidableEq, Repr

/-- `Thresholds` dataclass: red (hard) and yellow (warning) limits. -/
structure Thresholds where
  hr_red : ℚ
  spo2_red : ℚ
  sys_red : ℚ
  dia_red : ℚ
  temp_red_hi : ℚ
  temp_red_lo : ℚ
  hr_yellow : ℚ
  spo2_yellow : ℚ
  sys_yellow : ℚ
  dia_yellow : ℚ
  temp_yellow_hi : ℚ
  temp_yellow_lo : ℚ
  deriving DecidableEq, Repr

/-- `patient_thresholds(profile)`: profile tag to threshold table, with the
"normal" table as permissive fallback for any unrecognized tag. -/
def patient_thresholds (profile : String) : Thresholds :=
  if profile = "athlete" then
    { hr_red := 140, spo2_red := 92, sys_red := 170, dia_red := 110,
      temp_red_hi := 39, temp_red_lo := 35,
      hr_yellow := 105, spo2_yellow := 95, sys_yellow := 145, dia_yellow := 95,
      temp_yellow_hi := 38, temp_yellow_lo := 36 }
  else if profile = "hypertensive" then
    { hr_red := 150, spo2_red := 92, sys_red := 180, dia_red := 120,
      temp_red_hi := 39, temp_red_lo := 35,
      hr_yellow := 110, spo2_yellow := 95, sys_yellow := 155, dia_yellow := 100,
      temp_yellow_hi := 38, temp_yellow_lo := 36 }
  else if profile = "critical" then
    { hr_red := 135, spo2_red := 90, sys_red := 165, dia_red := 105,
      temp_red_hi := 39, temp_red_lo := 35,
      hr_yellow := 105, spo2_yellow := 94, sys_yellow := 145, dia_yellow := 95,
      temp_yellow_hi := 38, temp_yellow_lo := 36 }
  else
    { hr_red := 150, spo2_red := 92, sys_red := 170, dia_red := 110,
      temp_red_hi := 39, temp_red_lo := 35,
      hr_yellow := 110, spo2_yellow := 95, sys_yellow := 150, dia_yellow := 95,
      temp_yellow_hi := 38, temp_yellow_lo := 36 }

/-- The four risk levels (the source returns them as strings). -/
inductive Level where
  | green
  | yellow
  | orange
  | red
  deriving DecidableEq, Repr

/-- One reason string of the classifier, abstracted by format; each
constructor carries exactly the numeric values interpolated into the
corresponding Python f-string. -/
inductive Reason where
  | hrRed (hr thr : ℚ)
  | spo2Red (s thr : ℚ)
  | bpRed (sys dia tsys tdia : ℚ)
  | tempRed (t lo hi : ℚ)
  | hrRising (r : ℚ)
  | spo2Dropping (r : ℚ)
  | sysRising (r : ℚ)
  | hrYellowWarn (hr thr : ℚ)
  | spo2Warn (s thr : ℚ)
  | bpWarn (sys dia : ℚ)
  | tempWarn (t : ℚ)
  deriving DecidableEq, Repr

/-- `red_hits` after the four red checks (each check adds 1 when it fires;
the sequential `red_hits += 1` updates total to this sum). -/
def redHitsOf (v : Vitals) (th : Thresholds) : ℕ :=
  (if v.heart_rate ≥ th.hr_red then 1 else 0) +
  (if v.oxygen_saturation ≤ th.spo2_red then 1 else 0) +
  (if v.bp_systolic ≥ th.sys_red ∨ v.bp_diastolic ≥ th.dia_red then 1 else 0) +
  (if v.temperature ≥ th.temp_red_hi ∨ v.temperature ≤ th.temp_red_lo then 1 else 0)

/-- `warn_hits` after the four yellow checks. -/
def warnHitsOf (v : Vitals) (th : Thresholds) : ℕ :=
  (if v.heart_rate ≥ th.hr_yellow then 1 else 0) +
  (if v.oxygen_saturation ≤ th.spo2_yellow then 1 else 0) +
  (if v.bp_systolic ≥ th.sys_yellow ∨ v.bp_diastolic ≥ th.dia_yellow then 1 else 0) +
  (if v.temperature ≥ th.temp_yellow_hi ∨ v.temperature ≤ th.temp_yellow_lo then 1 else 0)

/-- The score contribution of the three trend boosts alone. -/
def trendScoreOf (rates : Rates) : ℚ :=
  (if rates.heart_rate ≥ 15 then 10 else 0) +
  (if rates.oxygen_saturation ≤ -2 then 15 else 0) +
  (if rates.bp_systolic ≥ 10 then 10 else 0)

/-- The un-clamped score: sum of the `score +=` increments of every check
that fires, in source order (red checks, trend boosts, yellow checks). -/
def rawScoreOf (v : Vitals) (th : Thresholds) (rates : Rates) : ℚ :=
  (if v.heart_rate ≥ th.hr_red then 25 else 0) +
  (if v.oxygen_saturation ≤ th.spo2_red then 30 else 0) +
  (if v.bp_systolic ≥ th.sys_red ∨ v.bp_diastolic ≥ th.dia_red then 25 else 0) +
  (if v.temperature ≥ th.temp_red_hi ∨ v.temperature ≤ th.temp_red_lo then 15 else 0) +
  trendScoreOf rates +
  (if v.heart_rate ≥ th.hr_yellow then 8 else 0) +
  (if v.oxygen_saturation ≤ th.spo2_yellow then 10 else 0) +
  (if v.bp_systolic ≥ th.sys_yellow ∨ v.bp_diastolic ≥ th.dia_yellow then 8 else 0) +
  (if v.temperature ≥ th.temp_yellow_hi ∨ v.temperature ≤ th.temp_yellow_lo then 6 else 0)

/-- `score = max(0.0, min(100.0, score))`. -/
def scoreOf (v : Vitals) (th : Thresholds) (rates : Rates) : ℚ :=
  max 0 (min 100 (rawScoreOf v th rates))

/-- The reasons accumulated by the red checks followed by the trend boosts,
in source order: exactly the list the backend's HR dedup check inspects. -/
def redTrendReasonsOf (v : Vitals) (th : Thresholds) (rates : Rates) : List Reason :=
  (if v.heart_rate ≥ th.hr_red then [Reason.hrRed v.heart_rate th.hr_red] else []) ++
  (if v.oxygen_saturation ≤ th.spo2_red then
    [Reason.spo2Red v.oxygen_saturation th.spo2_red] else []) ++
  (if v.bp_systolic ≥ th.sys_red ∨ v.bp_diastolic ≥ th.dia_red then
    [Reason.bpRed v.bp_systolic v.bp_diastolic th.sys_red th.dia_red] else []) ++
  (if v.temperature ≥ th.temp_red_hi ∨ v.temperature ≤ th.temp_red_lo then
    [Reason.tempRed v.temperature th.temp_red_lo th.temp_red_hi] else []) ++
  (if rates.heart_rate ≥ 15 then [Reason.hrRising rates.heart_rate] else []) ++
  (if rates.oxygen_saturation ≤ -2 then
    [Reason.spo2Dropping rates.oxygen_saturation] else []) ++
  (if rates.bp_systolic ≥ 10 then [Reason.sysRising rates.bp_systolic] else [])

/-- The reasons appended by the last three yellow checks (identical in both
source files). -/
def yellowTailReasonsOf (v : Vitals) (th : Thresholds) : List Reason :=
  (if v.oxygen_saturation ≤ th.spo2_yellow then
    [Reason.spo2Warn v.oxygen_saturation th.spo2_yellow] else []) ++
  (if v.bp_systolic ≥ th.sys_yellow ∨ v.bp_diastolic ≥ th.dia_yellow then
    [Reason.bpWarn v.bp_systolic v.bp_diastolic] else []) ++
  (if v.temperature ≥ th.temp_yellow_hi ∨ v.temperature ≤ th.temp_yellow_lo then
    [Reason.tempWarn v.temperature] else [])

/-- The reasons list of `classify_level` in `src/risk_engine.py`: every
triggered check appends its reason, in source order (no deduplication). -/
def reasonsOf (v : Vitals) (th : Thresholds) (rates : Rates) : List Reason :=
  redTrendReasonsOf v th rates ++
  ((if v.heart_rate ≥ th.hr_yellow then
    [Reason.hrYellowWarn v.heart_rate th.hr_yellow] else []) ++
  yellowTailReasonsOf v th)

/-- The reasons list of `classify_level` in
`src/backend-python/app/risk_engine.py`: identical sequence of appends except
that the HR yellow warning reason is only appended when the HR red reason
string (`f"HR {hr:.0f} >= {hr_red:.0f}"`) is not already in the accumulated
list (which, at that point, is `redTrendReasonsOf`). -/
def backendReasonsOf (v : Vitals) (th : Thresholds) (rates : Rates) : List Reason :=
  redTrendReasonsOf v th rates ++
  ((if v.heart_rate ≥ th.hr_yellow then
    (if Reason.hrRed v.heart_rate th.hr_red ∈ redTrendReasonsOf v th rates then []
     else [Reason.hrYellowWarn v.heart_rate th.hr_yellow]) else []) ++
  yellowTailReasonsOf v th)

/-- The final level decision chain of `classify_level` (identical in both
source files), applied to the computed hits and clamped score. -/
def levelOf (v : Vitals) (th : Thresholds) (rates : Rates) : Level :=
  if redHitsOf v th ≥ 1 ∧ scoreOf v th rates ≥ 55 then .red
  else if redHitsOf v th ≥ 1 ∨ scoreOf v th rates ≥ 45 ∨ warnHitsOf v th ≥ 2 then .orange
  else if warnHitsOf v th ≥ 1 ∨ scoreOf v th rates ≥ 20 then .yellow
  else .green

/-- Full result of `classify_level` (`src/risk_engine.py`), with the internal
counters exposed alongside the returned triple. -/
structure ClassifyResult where
  level : Level
  reasons : List Reason
  score : ℚ
  redHits : ℕ
  warnHits : ℕ
  deriving DecidableEq, Repr

def classifyFull (v : Vitals) (th : Thresholds) (rates : Rates) : ClassifyResult :=
  { level := levelOf v th rates, reasons := reasonsOf v th rates,
    score := scoreOf v th rates, redHits := redHitsOf v th,
    warnHits := warnHitsOf v th }

/-- `classify_level` of `src/backend-python/app/risk_engine.py` (same hits,
score and level; reasons list with the HR dedup check). -/
def classifyFullB (v : Vitals) (th : Thresholds) (rates : Rates) : ClassifyResult :=
  { level := levelOf v th rates, reasons := backendReasonsOf v th rates,
    score := scoreOf v th rates, redHits := redHitsOf v th,
    warnHits := warnHitsOf v th }

/-- The returned triple `(level, reasons, score)` of `classify_level`. -/
def classify_level (v : Vitals) (th : Thresholds) (rates : Rates) :
    Level × List Reason × ℚ :=
  (levelOf v th rates, reasonsOf v th rates, scoreOf v th rates)

/-- One element of an outcome's `because` list: either the rule's fixed
lead-in phrase or one of the classifier's reason strings. -/
inductive BecauseItem where
  | lead (s : String)
  | reason (r : Reason)
  deriving DecidableEq, Repr

/-- One outcome dict of `infer_outcomes`. -/
structure Outcome where
  name : String
  probability : ℚ
  because : List BecauseItem
  action : String
  deriving DecidableEq, Repr

/-- Firing condition of the cardiac-event rule. -/
def cardiacCond (v : Vitals) : Prop :=
  v.heart_rate ≥ 130 ∧ (v.bp_systolic ≥ 170 ∨ v.oxygen_saturation ≤ 92)

/-- Firing condition of the stroke / hypertensive-crisis rule. -/
def strokeCond (v : Vitals) : Prop :=
  v.bp_systolic ≥ 180 ∨ v.bp_diastolic ≥ 120

/-- Firing condition of the respiratory-compromise rule. -/
def respCond (v : Vitals) : Prop :=
  v.oxygen_saturation ≤ 90

/-- Firing condition of the sepsis-screen rule. -/
def sepsisCond (v : Vitals) : Prop :=
  v.temperature ≥ 38.5 ∧ v.heart_rate ≥ 120

instance (v : Vitals) : Decidable (cardiacCond v) := by
  unfold cardiacCond; infer_instance

instance (v : Vitals) : Decidable (strokeCond v) := by
  unfold strokeCond; infer_instance

instance (v : Vitals) : Decidable (respCond v) := by
  unfold respCond; infer_instance

instance (v : Vitals) : Decidable (sepsisCond v) := by
  unfold sepsisCond; infer_instance

def cardiacOutcome (level : Level) (reasons : List Reason) : Outcome :=
  { name := "Acute cardiac event risk",
    probability := if level = .red then 0.75 else 0.55,
    because := .lead "High HR with high BP or low SpO2" ::
      (reasons.take 2).map .reason,
    action := "Immediate clinician review; ECG + troponin; oxygen support if needed." }

def strokeOutcome (level : Level) (reasons : List Reason) : Outcome :=
  { name := "Stroke / hypertensive crisis risk",
    probability := if level = .orange ∨ level = .red then 0.80 else 0.60,
    because := .lead "Severely elevated blood pressure" ::
      (reasons.take 2).map .reason,
    action := "Urgent BP management; neuro checks; emergency protocol if needed." }

def respOutcome (level : Level) (reasons : List Reason) : Outcome :=
  { name := "Respiratory compromise risk",
    probability := if level = .red then 0.85 else 0.65,
    because := .lead "Low oxygen saturation" :: (reasons.take 2).map .reason,
    action := "Check airway; oxygen; evaluate pulmonary causes." }

def sepsisOutcome (level : Level) (reasons : List Reason) : Outcome :=
  { name := "Systemic infection / sepsis risk (screen)",
    probability := if level = .orange ∨ level = .red then 0.60 else 0.40,
    because := .lead "Fever + tachycardia pattern" :: (reasons.take 2).map .reason,
    action := "Clinical assessment; labs; fluids per protocol if indicated." }

def fallbackOutcome (reasons : List Reason) : Outcome :=
  { name := "Undifferentiated deterioration risk",
    probability := 0.50,
    because := (reasons.take 3).map .reason,
    action := "Repeat vitals; verify sensors; clinician evaluation." }

/-- `infer_outcomes(v, level, reasons)`: the four pattern rules appended in
source order, then the fallback if the list is still empty and the level is
orange or red. -/
def infer_outcomes (v : Vitals) (level : Level) (reasons : List Reason) :
    List Outcome :=
  let outcomes : List Outcome := []
  let outcomes := if cardiacCond v then outcomes ++ [cardiacOutcome level reasons]
    else outcomes
  let outcomes := if strokeCond v then outcomes ++ [strokeOutcome level reasons]
    else outcomes
  let outcomes := if respCond v then outcomes ++ [respOutcome level reasons]
    else outcomes
  let outcomes := if sepsisCond v then outcomes ++ [sepsisOutcome level reasons]
    else outcomes
  if outcomes = [] ∧ (level = .orange ∨ level = .red) then
    outcomes ++ [fallbackOutcome reasons]
  else outcomes

/-- Vital-sign keys used to index a vitals dict in `_rate_per_min`. -/
inductive VKey where
  | heart_rate
  | bp_systolic
  | bp_diastolic
  | oxygen_saturation
  | temperature
  deriving DecidableEq, Repr

def Vitals.get (v : Vitals) : VKey → ℚ
  | .heart_rate => v.heart_rate
  | .bp_systolic => v.bp_systolic
  | .bp_diastolic => v.bp_diastolic
  | .oxygen_saturation => v.oxygen_saturation
  | .temperature => v.temperature

/-- One rolling-window entry `(t_epoch, vitals)`. -/
abbrev Entry := ℚ × Vitals

/-- `RollingWindow._rate_per_min(key, seconds)` on the window's buffer
(oldest first): 0.0 with fewer than 2 entries, otherwise the per-minute rate
between the newest sample and the first sample at least `seconds` old
(`data[0]` as fallback), with `dt = max(1e-6, t_now - t_ref)`. -/
def ratePerMin (data : List Entry) (key : VKey) (seconds : ℚ) : ℚ :=
  match data with
  | [] => 0
  | [_] => 0
  | a :: b :: rest =>
    let last := (a :: b :: rest).getLast (List.cons_ne_nil a (b :: rest))
    let tNow := last.1
    let ref := ((a :: b :: rest).find? fun p => decide (tNow - p.1 ≥ seconds)).getD a
    let dt := max (1 / 1000000) (tNow - ref.1)
    (last.2.get key - ref.2.get key) / dt * 60

/-- `RollingWindow.rates_per_min()`: fixed per-vital lookbacks. -/
def rates_per_min (data : List Entry) : Rates :=
  { heart_rate := ratePerMin data .heart_rate 60,
    bp_systolic := ratePerMin data .bp_systolic 120,
    oxygen_saturation := ratePerMin data .oxygen_saturation 60,
    temperature := ratePerMin data .temperature 300 }

/-- Modelled from the spec (§4.2): the first sample, scanning oldest to
newest, whose age `t_now - t_i` is at least the lookback. -/
def firstAged (tNow s : ℚ) : List Entry → Option Entry
  | [] => none
  | p :: rest => if tNow - p.1 ≥ s then some p else firstAged tNow s rest

/-- Modelled from the spec (§4.2): `rate_per_minute` as the spec words it —
0.0 below 2 samples, else the rate from the first sufficiently old sample
(fallback: oldest) to the newest. -/
def ratePerMinSpec (data : List Entry) (key : VKey) (s : ℚ) : ℚ :=
  match data with
  | [] => 0
  | [_] => 0
  | a :: b :: rest =>
    let last := (a :: b :: rest).getLast (List.cons_ne_nil a (b :: rest))
    let tNow := last.1
    let ref := (firstAged tNow s (a :: b :: rest)).getD a
    (last.2.get key - ref.2.get key) / max (1 / 1000000) (tNow - ref.1) * 60

/-- Default deque capacity of `RollingWindow` in `src/risk_engine.py`. -/
def defaultMaxlen : ℕ := 120

/-- A `deque(maxlen := c)` append: add at the right, dropping from the left
whatever exceeds the capacity. -/
def dequeAppend (c : ℕ) (d : List Entry) (e : Entry) : List Entry :=
  let d2 := d ++ [e]
  d2.drop (d2.length - c)

/-- The buffer contents after pushing the samples of `xs` in order into an
initially empty window of capacity `c`. -/
def pushAll (c : ℕ) (xs : List Entry) : List Entry :=
  xs.foldl (dequeAppend c) []

/-- The timestamp stored by `RollingWindow.push` in `src/risk_engine.py`:
`t_epoch or time.time()` — the clock value when `t_epoch` is `None` or the
falsy float `0.0`, and `t_epoch` itself otherwise. -/
def pushTimestamp (tEpoch : Option ℚ) (now : ℚ) : ℚ :=
  match tEpoch with
  | none => now
  | some t => if t = 0 then now else t

/-- `RollingWindow.push(vitals, t_epoch)` in `src/risk_engine.py`. -/
def RollingWindow.push (c : ℕ) (d : List Entry) (vitals : Vitals)
    (tEpoch : Option ℚ) (now : ℚ) : List Entry :=
  dequeAppend c d (pushTimestamp tEpoch now, vitals)

lemma find_eq_firstAged (tNow s : ℚ) (l : List Entry) :
    l.find? (fun p => decide (tNow - p.1 ≥ s)) = firstAged tNow s l := by
  induction l with
  | nil => rfl
  | cons p rest ih =>
    by_cases h : tNow - p.1 ≥ s <;> simp [List.find?, firstAged, h, ih]

lemma foldl_dequeAppend (c : ℕ) (xs : List Entry) :
    ∀ d : List Entry, d.length ≤ c →
      xs.foldl (dequeAppend c) d = (d ++ xs).drop ((d ++ xs).length - c) := by
  induction xs with
  | nil =>
    intro d hd
    have h0 : d.length - c = 0 := by omega
    simp [h0]
  | cons e tl ih =>
    intro d hd
    have hlen : (dequeAppend c d e).length ≤ c := by
      simp [dequeAppend]
      omega
    rw [List.foldl_cons, ih _ hlen]
    simp only [dequeAppend]
    rw [← List.drop_append_of_le_length (by simp), List.drop_drop]
    rw [List.append_assoc]
    congr 1
    simp [List.length_drop]
    omega

lemma pushAll_eq_drop (c : ℕ) (xs : List Entry) :
    pushAll c xs = xs.drop (xs.length - c) := by
  have := foldl_dequeAppend c xs [] (by simp)
  simpa [pushAll] using this

lemma head?_drop (l : List Entry) (n : ℕ) : (l.drop n).head? = l.get? n := by
  induction l generalizing n with
  | nil => simp
  | cons a t ih =>
    cases n with
    | zero => simp
    | succ m => simp [ih m]

/-- C1: `classify_level` chooses the level in exactly the source's priority
order: red iff `red_hits ≥ 1` and clamped score `≥ 55`; otherwise orange iff
`red_hits ≥ 1` or score `≥ 45` or `warn_hits ≥ 2`; otherwise yellow iff
`warn_hits ≥ 1` or score `≥ 20`; otherwise green. In particular a single red
hit with score below 55 yields orange, never red. -/
theorem claim1_level_decision_priority (v : Vitals) (th : Thresholds)
    (rates : Rates) :
    (levelOf v th rates = .red ↔
      redHitsOf v th ≥ 1 ∧ scoreOf v th rates ≥ 55) ∧
    (levelOf v th rates = .orange ↔
      ¬(redHitsOf v th ≥ 1 ∧ scoreOf v th rates ≥ 55) ∧
      (redHitsOf v th ≥ 1 ∨ scoreOf v th rates ≥ 45 ∨ warnHitsOf v th ≥ 2)) ∧
    (levelOf v th rates = .yellow ↔
      ¬(redHitsOf v th ≥ 1 ∧ scoreOf v th rates ≥ 55) ∧
      ¬(redHitsOf v th ≥ 1 ∨ scoreOf v th rates ≥ 45 ∨ warnHitsOf v th ≥ 2) ∧
      (warnHitsOf v th ≥ 1 ∨ scoreOf v th rates ≥ 20)) ∧
    (levelOf v th rates = .green ↔
      ¬(redHitsOf v th ≥ 1 ∧ scoreOf v th rates ≥ 55) ∧
      ¬(redHitsOf v th ≥ 1 ∨ scoreOf v th rates ≥ 45 ∨ warnHitsOf v th ≥ 2) ∧
      ¬(warnHitsOf v th ≥ 1 ∨ scoreOf v th rates ≥ 20)) ∧
    (redHitsOf v th ≥ 1 → scoreOf v th rates < 55 →
      levelOf v th rates = .orange) := by
  refine ⟨?_, ?_, ?_, ?_, ?_⟩ <;> unfold levelOf <;>
    split_ifs with h1 h2 h3 <;> simp_all

/-- C2: `_rate_per_min` returns 0.0 with fewer than 2 samples and otherwise
the per-minute rate from the first sample (scanning oldest to newest) whose
age is at least the lookback — falling back to the oldest sample — to the
newest sample, with `dt = max(1e-6, t_now - t_ref)`; this is the spec-side
algorithm `ratePerMinSpec` verbatim. -/
theorem claim2_rate_per_min_spec (data : List Entry) (key : VKey) (s : ℚ) :
    ratePerMin data key s = ratePerMinSpec data key s ∧
    (data.length < 2 → ratePerMin data key s = 0) := by
  constructor
  · cases data with
    | nil => rfl
    | cons a rest =>
      cases rest with
      | nil => rfl
      | cons b rest2 => simp [ratePerMin, ratePerMinSpec, find_eq_firstAged]
  · intro h
    cases data with
    | nil => rfl
    | cons a rest =>
      cases rest with
      | nil => rfl
      | cons b rest2 => simp at h; omega

/-- C2 witness: on a one-entry window the rate is 0, by the theorem. -/
theorem claim2_rate_per_min_spec_witness :
    ([((0 : ℚ), (⟨80, 120, 80, 98, 37⟩ : Vitals))] : List Entry).length < 2 ∧
    ratePerMin [((0 : ℚ), (⟨80, 120, 80, 98, 37⟩ : Vitals))] .heart_rate 60 = 0 :=
  ⟨by simp,
   (claim2_rate_per_min_spec [((0 : ℚ), (⟨80, 120, 80, 98, 37⟩ : Vitals))]
     .heart_rate 60).2 (by simp)⟩

/-- C3: the default window capacity is 120; for every push sequence the
buffer size stays within the capacity, and once the number of pushes exceeds
the capacity the retained buffer starts at the `(n - capacity + 1)`-th pushed
sample (index `n - capacity`, zero-based): FIFO eviction of the oldest. -/
theorem claim3_window_capacity_fifo (c : ℕ) (xs : List Entry) :
    defaultMaxlen = 120 ∧
    (pushAll defaultMaxlen xs).length ≤ 120 ∧
    (pushAll c xs).length ≤ c ∧
    (c < xs.length → (pushAll c xs).head? = xs.get? (xs.length - c)) := by
  refine ⟨rfl, ?_, ?_, ?_⟩
  · rw [pushAll_eq_drop]
    simp [defaultMaxlen, List.length_drop]
    omega
  · rw [pushAll_eq_drop]
    simp [List.length_drop]
    omega
  · intro h
    rw [pushAll_eq_drop, head?_drop]

/-- C3 witness: capacity 2, three pushes — the buffer head is the 2nd pushed
sample, by the theorem. -/
theorem claim3_window_capacity_fifo_witness :
    (2 : ℕ) <
      ([((1 : ℚ), (⟨80, 120, 80, 98, 37⟩ : Vitals)),
        ((2 : ℚ), (⟨81, 120, 80, 98, 37⟩ : Vitals)),
        ((3 : ℚ), (⟨82, 120, 80, 98, 37⟩ : Vitals))] : List Entry).length ∧
    (pushAll 2
      [((1 : ℚ), (⟨80, 120, 80, 98, 37⟩ : Vitals)),
       ((2 : ℚ), (⟨81, 120, 80, 98, 37⟩ : Vitals)),
       ((3 : ℚ), (⟨82, 120, 80, 98, 37⟩ : Vitals))]).head? =
      ([((1 : ℚ), (⟨80, 120, 80, 98, 37⟩ : Vitals)),
        ((2 : ℚ), (⟨81, 120, 80, 98, 37⟩ : Vitals)),
        ((3 : ℚ), (⟨82, 120, 80, 98, 37⟩ : Vitals))] : List Entry).get?
        (([((1 : ℚ), (⟨80, 120, 80, 98, 37⟩ : Vitals)),
           ((2 : ℚ), (⟨81, 120, 80, 98, 37⟩ : Vitals)),
           ((3 : ℚ), (⟨82, 120, 80, 98, 37⟩ : Vitals))] : List Entry).length - 2) :=
  ⟨by simp,
   (claim3_window_capacity_fifo 2
     [((1 : ℚ), (⟨80, 120, 80, 98, 37⟩ : Vitals)),
      ((2 : ℚ), (⟨81, 120, 80, 98, 37⟩ : Vitals)),
      ((3 : ℚ), (⟨82, 120, 80, 98, 37⟩ : Vitals))]).2.2.2 (by simp)⟩

/-- C7: in each of the four threshold tables every yellow limit is strictly
less severe than the corresponding red limit. -/
theorem claim7_yellow_strictly_less_severe (profile : String) :
    (patient_thresholds profile).hr_yellow < (patient_thresholds profile).hr_red ∧
    (patient_thresholds profile).spo2_yellow > (patient_thresholds profile).spo2_red ∧
    (patient_thresholds profile).sys_yellow < (patient_thresholds profile).sys_red ∧
    (patient_thresholds profile).dia_yellow < (patient_thresholds profile).dia_red ∧
    (patient_thresholds profile).temp_yellow_hi <
      (patient_thresholds profile).temp_red_hi ∧
    (patient_thresholds profile).temp_yellow_lo >
      (patient_thresholds profile).temp_red_lo := by
  unfold patient_thresholds
  split_ifs <;> norm_num

lemma ite_indicator_mono {P Q : Prop} [Decidable P] [Decidable Q]
    (h : P → Q) {c : ℚ} (hc : 0 ≤ c) :
    (if P then c else 0) ≤ (if Q then c else 0) := by
  split_ifs with hp hq
  · exact le_refl c
  · exact absurd (h hp) hq
  · exact hc
  · exact le_refl 0

/-- C4: with all other vitals, thresholds and rates fixed, raising
`heart_rate` never lowers the clamped classify score. -/
theorem claim4_score_monotone_hr (v : Vitals) (hr2 : ℚ) (th : Thresholds)
    (rates : Rates) (h : v.heart_rate ≤ hr2) :
    (classifyFull v th rates).score ≤
      (classifyFull { v with heart_rate := hr2 } th rates).score := by
  have hraw : rawScoreOf v th rates ≤
      rawScoreOf { v with heart_rate := hr2 } th rates := by
    unfold rawScoreOf
    simp only
    gcongr ?_ + ?_ + ?_ + ?_ + ?_ + ?_ + ?_ + ?_ + ?_
    · exact ite_indicator_mono (fun hp => le_trans hp h) (by norm_num)
    · exact le_refl _
    · exact le_refl _
    · exact le_refl _
    · exact le_refl _
    · exact ite_indicator_mono (fun hp => le_trans hp h) (by norm_num)
    · exact le_refl _
    · exact le_refl _
    · exact le_refl _
  simp only [classifyFull, scoreOf]
  exact max_le_max (le_refl 0) (min_le_min (le_refl 100) hraw)

/-- C4 witness: raising the heart rate from 80 to 120 under the "normal"
thresholds does not lower the score, by the theorem. -/
theorem claim4_score_monotone_hr_witness :
    ((⟨80, 120, 80, 98, 37⟩ : Vitals).heart_rate ≤ 120) ∧
    (classifyFull ⟨80, 120, 80, 98, 37⟩ (patient_thresholds "normal")
        ⟨0, 0, 0, 0⟩).score ≤
      (classifyFull { (⟨80, 120, 80, 98, 37⟩ : Vitals) with heart_rate := 120 }
        (patient_thresholds "normal") ⟨0, 0, 0, 0⟩).score :=
  ⟨by norm_num,
   claim4_score_monotone_hr ⟨80, 120, 80, 98, 37⟩ 120
     (patient_thresholds "normal") ⟨0, 0, 0, 0⟩ (by norm_num)⟩

/-- C5: for profile "normal" with vitals HR 160, BP 185/95, SpO2 90,
temperature 37 and all rates 0, the classifier reports at least 3 red hits,
clamped score 100 and level red, and the inferred outcomes include the
cardiac, stroke/hypertensive and respiratory risks. -/
theorem claim5_normal_red_scenario :
    3 ≤ (classifyFull ⟨160, 185, 95, 90, 37⟩ (patient_thresholds "normal")
      ⟨0, 0, 0, 0⟩).redHits ∧
    (classifyFull ⟨160, 185, 95, 90, 37⟩ (patient_thresholds "normal")
      ⟨0, 0, 0, 0⟩).score = 100 ∧
    (classifyFull ⟨160, 185, 95, 90, 37⟩ (patient_thresholds "normal")
      ⟨0, 0, 0, 0⟩).level = .red ∧
    "Acute cardiac event risk" ∈
      (infer_outcomes ⟨160, 185, 95, 90, 37⟩
        (classifyFull ⟨160, 185, 95, 90, 37⟩ (patient_thresholds "normal")
          ⟨0, 0, 0, 0⟩).level
        (classifyFull ⟨160, 185, 95, 90, 37⟩ (patient_thresholds "normal")
          ⟨0, 0, 0, 0⟩).reasons).map Outcome.name ∧
    "Stroke / hypertensive crisis risk" ∈
      (infer_outcomes ⟨160, 185, 95, 90, 37⟩
        (classifyFull ⟨160, 185, 95, 90, 37⟩ (patient_thresholds "normal")
          ⟨0, 0, 0, 0⟩).level
        (classifyFull ⟨160, 185, 95, 90, 37⟩ (patient_thresholds "normal")
          ⟨0, 0, 0, 0⟩).reasons).map Outcome.name ∧
    "Respiratory compromise risk" ∈
      (infer_outcomes ⟨160, 185, 95, 90, 37⟩
        (classifyFull ⟨160, 185, 95, 90, 37⟩ (patient_thresholds "normal")
          ⟨0, 0, 0, 0⟩).level
        (classifyFull ⟨160, 185, 95, 90, 37⟩ (patient_thresholds "normal")
          ⟨0, 0, 0, 0⟩).reasons).map Outcome.name := by
  refine ⟨?_, ?_, ?_, ?_, ?_, ?_⟩ <;>
    simp [classifyFull, levelOf, scoreOf, rawScoreOf, trendScoreOf, redHitsOf,
      warnHitsOf, reasonsOf, redTrendReasonsOf, yellowTailReasonsOf,
      patient_thresholds, infer_outcomes, cardiacCond, strokeCond, respCond,
      sepsisCond, cardiacOutcome, strokeOutcome, respOutcome, sepsisOutcome,
      min_def, max_def] <;>
    norm_num <;>
    simp

lemma mem_ite_singleton {α : Type} (a x : α) (c : Prop) [Decidable c] :
    (a ∈ if c then [x] else ([] : List α)) ↔ c ∧ a = x := by
  split_ifs with h <;> simp [h]

/-- C6: `infer_outcomes` evaluates its four pattern rules independently —
the result is exactly the concatenation of the singleton outcome of every
rule whose condition holds, in source order, with the fallback outcome
appended exactly when no rule fired and the level is orange or red; every
outcome's `because` list has at most 3 entries, each rule outcome's being its
fixed lead-in phrase followed by the first 2 reasons in list order, and the
fallback's being the first 3 reasons with probability 0.50. -/
theorem claim6_outcome_rules_independent (v : Vitals) (level : Level)
    (reasons : List Reason) :
    infer_outcomes v level reasons =
      (if cardiacCond v then [cardiacOutcome level reasons] else []) ++
      (if strokeCond v then [strokeOutcome level reasons] else []) ++
      (if respCond v then [respOutcome level reasons] else []) ++
      (if sepsisCond v then [sepsisOutcome level reasons] else []) ++
      (if ¬cardiacCond v ∧ ¬strokeCond v ∧ ¬respCond v ∧ ¬sepsisCond v ∧
          (level = .orange ∨ level = .red) then [fallbackOutcome reasons]
        else []) ∧
    (∀ o ∈ infer_outcomes v level reasons, o.because.length ≤ 3) ∧
    (∀ o ∈ infer_outcomes v level reasons,
      o.name ≠ "Undifferentiated deterioration risk" →
      ∃ s, o.because = .lead s :: (reasons.take 2).map .reason) ∧
    (fallbackOutcome reasons).probability = 0.50 ∧
    (fallbackOutcome reasons).because = (reasons.take 3).map .reason := by
  have heq : infer_outcomes v level reasons =
      (if cardiacCond v then [cardiacOutcome level reasons] else []) ++
      (if strokeCond v then [strokeOutcome level reasons] else []) ++
      (if respCond v then [respOutcome level reasons] else []) ++
      (if sepsisCond v then [sepsisOutcome level reasons] else []) ++
      (if ¬cardiacCond v ∧ ¬strokeCond v ∧ ¬respCond v ∧ ¬sepsisCond v ∧
          (level = .orange ∨ level = .red) then [fallbackOutcome reasons]
        else []) := by
    by_cases h1 : cardiacCond v <;> by_cases h2 : strokeCond v <;>
      by_cases h3 : respCond v <;> by_cases h4 : sepsisCond v <;>
      simp [infer_outcomes, h1, h2, h3, h4]
  refine ⟨heq, ?_, ?_, rfl, rfl⟩
  · intro o ho
    rw [heq] at ho
    simp only [List.mem_append, mem_ite_singleton] at ho
    rcases ho with ((((⟨_, rfl⟩ | ⟨_, rfl⟩) | ⟨_, rfl⟩) | ⟨_, rfl⟩) | ⟨_, rfl⟩) <;>
      simp [cardiacOutcome, strokeOutcome, respOutcome, sepsisOutcome,
        fallbackOutcome, List.length_take]
  · intro o ho hname
    rw [heq] at ho
    simp only [List.mem_append, mem_ite_singleton] at ho
    rcases ho with ((((⟨_, rfl⟩ | ⟨_, rfl⟩) | ⟨_, rfl⟩) | ⟨_, rfl⟩) | ⟨_, rfl⟩)
    · exact ⟨"High HR with high BP or low SpO2", rfl⟩
    · exact ⟨"Severely elevated blood pressure", rfl⟩
    · exact ⟨"Low oxygen saturation", rfl⟩
    · exact ⟨"Fever + tachycardia pattern", rfl⟩
    · exact absurd rfl hname

lemma mem_redTrend_hrRed (v : Vitals) (th : Thresholds) (rates : Rates) :
    Reason.hrRed v.heart_rate th.hr_red ∈ redTrendReasonsOf v th rates ↔
      v.heart_rate ≥ th.hr_red := by
  simp [redTrendReasonsOf, List.mem_append, mem_ite_singleton]

lemma hrYellowWarn_not_mem_redTrend (v : Vitals) (th : Thresholds)
    (rates : Rates) (a b : ℚ) :
    Reason.hrYellowWarn a b ∉ redTrendReasonsOf v th rates := by
  simp [redTrendReasonsOf, List.mem_append, mem_ite_singleton]

lemma hrYellowWarn_not_mem_yellowTail (v : Vitals) (th : Thresholds)
    (a b : ℚ) :
    Reason.hrYellowWarn a b ∉ yellowTailReasonsOf v th := by
  simp [yellowTailReasonsOf, List.mem_append, mem_ite_singleton]

/-- C8 counterexample: in `src/risk_engine.py` no deduplication is applied —
for HR 160 under the "normal" thresholds the reasons list contains the HR red
reason and nevertheless also the HR yellow warning reason, refuting the claim
that the yellow warning is not appended when the red reason is present. -/
theorem claim8_counterexample_no_dedup_in_src :
    Reason.hrRed 160 150 ∈
      (classifyFull ⟨160, 120, 80, 98, 37⟩ (patient_thresholds "normal")
        ⟨0, 0, 0, 0⟩).reasons ∧
    Reason.hrYellowWarn 160 110 ∈
      (classifyFull ⟨160, 120, 80, 98, 37⟩ (patient_thresholds "normal")
        ⟨0, 0, 0, 0⟩).reasons := by
  constructor <;>
    simp [classifyFull, reasonsOf, redTrendReasonsOf, yellowTailReasonsOf,
      patient_thresholds] <;> norm_num

/-- C8 (amended): the reasons list is the ordered sequence of the fixed
evaluation order (red checks, trend boosts, yellow checks). The ad-hoc
same-string HR red/yellow dedup exists only in
`src/backend-python/app/risk_engine.py`: there the HR yellow warning reason
is appended only when the HR red reason is absent (HR below `hr_red`), and no
other dedup is applied; in `src/risk_engine.py` every triggered check always
appends its reason, so both HR reasons appear together whenever both checks
fire. -/
theorem claim8_amended_reasons_order_dedup (v : Vitals) (th : Thresholds)
    (rates : Rates) :
    (classifyFull v th rates).reasons =
      redTrendReasonsOf v th rates ++
      ((if v.heart_rate ≥ th.hr_yellow then
          [Reason.hrYellowWarn v.heart_rate th.hr_yellow] else []) ++
       yellowTailReasonsOf v th) ∧
    (classifyFullB v th rates).reasons =
      redTrendReasonsOf v th rates ++
      ((if v.heart_rate ≥ th.hr_yellow ∧ ¬(v.heart_rate ≥ th.hr_red) then
          [Reason.hrYellowWarn v.heart_rate th.hr_yellow] else []) ++
       yellowTailReasonsOf v th) ∧
    (v.heart_rate ≥ th.hr_red → v.heart_rate ≥ th.hr_yellow →
      Reason.hrRed v.heart_rate th.hr_red ∈ (classifyFull v th rates).reasons ∧
      Reason.hrYellowWarn v.heart_rate th.hr_yellow ∈
        (classifyFull v th rates).reasons ∧
      Reason.hrRed v.heart_rate th.hr_red ∈ (classifyFullB v th rates).reasons ∧
      Reason.hrYellowWarn v.heart_rate th.hr_yellow ∉
        (classifyFullB v th rates).reasons) := by
  have hB : (classifyFullB v th rates).reasons =
      redTrendReasonsOf v th rates ++
      ((if v.heart_rate ≥ th.hr_yellow ∧ ¬(v.heart_rate ≥ th.hr_red) then
          [Reason.hrYellowWarn v.heart_rate th.hr_yellow] else []) ++
       yellowTailReasonsOf v th) := by
    simp only [classifyFullB, backendReasonsOf, mem_redTrend_hrRed]
    split_ifs <;> simp_all
  refine ⟨rfl, hB, ?_⟩
  intro hred hyel
  refine ⟨?_, ?_, ?_, ?_⟩
  · simp only [classifyFull, reasonsOf]
    simp [List.mem_append, mem_redTrend_hrRed, hred]
  · simp only [classifyFull, reasonsOf]
    simp [List.mem_append, mem_ite_singleton, hyel]
  · rw [hB]
    simp [List.mem_append, mem_redTrend_hrRed, hred]
  · rw [hB]
    simp [List.mem_append, mem_ite_singleton, hred,
      hrYellowWarn_not_mem_redTrend, hrYellowWarn_not_mem_yellowTail]

/-- C8 witness: HR 160 under the "normal" thresholds fires both HR checks —
by the theorem, the classifier of `src/risk_engine.py` keeps both HR reasons
while the backend copy omits the yellow warning. -/
theorem claim8_amended_reasons_order_dedup_witness :
    ((⟨160, 120, 80, 98, 37⟩ : Vitals).heart_rate ≥
      (patient_thresholds "normal").hr_red) ∧
    ((⟨160, 120, 80, 98, 37⟩ : Vitals).heart_rate ≥
      (patient_thresholds "normal").hr_yellow) ∧
    (Reason.hrRed (⟨160, 120, 80, 98, 37⟩ : Vitals).heart_rate
        (patient_thresholds "normal").hr_red ∈
      (classifyFull ⟨160, 120, 80, 98, 37⟩ (patient_thresholds "normal")
        ⟨0, 0, 0, 0⟩).reasons ∧
     Reason.hrYellowWarn (⟨160, 120, 80, 98, 37⟩ : Vitals).heart_rate
        (patient_thresholds "normal").hr_yellow ∈
      (classifyFull ⟨160, 120, 80, 98, 37⟩ (patient_thresholds "normal")
        ⟨0, 0, 0, 0⟩).reasons ∧
     Reason.hrRed (⟨160, 120, 80, 98, 37⟩ : Vitals).heart_rate
        (patient_thresholds "normal").hr_red ∈
      (classifyFullB ⟨160, 120, 80, 98, 37⟩ (patient_thresholds "normal")
        ⟨0, 0, 0, 0⟩).reasons ∧
     Reason.hrYellowWarn (⟨160, 120, 80, 98, 37⟩ : Vitals).heart_rate
        (patient_thresholds "normal").hr_yellow ∉
      (classifyFullB ⟨160, 120, 80, 98, 37⟩ (patient_thresholds "normal")
        ⟨0, 0, 0, 0⟩).reasons) :=
  ⟨by simp [patient_thresholds]; norm_num, by simp [patient_thresholds]; norm_num,
   (claim8_amended_reasons_order_dedup ⟨160, 120, 80, 98, 37⟩
      (patient_thresholds "normal") ⟨0, 0, 0, 0⟩).2.2
     (by simp [patient_thresholds]; norm_num) (by simp [patient_thresholds]; norm_num)⟩

lemma trendScore_nonneg (rates : Rates) : 0 ≤ trendScoreOf rates := by
  unfold trendScoreOf
  split_ifs <;> norm_num

lemma trendScore_le_35 (rates : Rates) : trendScoreOf rates ≤ 35 := by
  unfold trendScoreOf
  split_ifs <;> norm_num

/-- C9: when no red check and no yellow check fires, the clamped score is
exactly the trend contribution, hence at most 35; the level is never orange
or red, is yellow exactly when that trend score reaches 20, and green
otherwise. -/
theorem claim9_trend_only_bounded (v : Vitals) (th : Thresholds)
    (rates : Rates) (hred : redHitsOf v th = 0) (hwarn : warnHitsOf v th = 0) :
    scoreOf v th rates = trendScoreOf rates ∧
    scoreOf v th rates ≤ 35 ∧
    levelOf v th rates ≠ .orange ∧
    levelOf v th rates ≠ .red ∧
    (levelOf v th rates = .yellow ↔ scoreOf v th rates ≥ 20) ∧
    (levelOf v th rates = .green ↔ scoreOf v th rates < 20) := by
  have c1 : ¬(v.heart_rate ≥ th.hr_red) := by
    by_contra hc; simp [redHitsOf, hc] at hred
  have c2 : ¬(v.oxygen_saturation ≤ th.spo2_red) := by
    by_contra hc; simp [redHitsOf, hc] at hred
  have c3 : ¬(v.bp_systolic ≥ th.sys_red ∨ v.bp_diastolic ≥ th.dia_red) := by
    by_contra hc; simp [redHitsOf, hc] at hred
  have c4 : ¬(v.temperature ≥ th.temp_red_hi ∨ v.temperature ≤ th.temp_red_lo) := by
    by_contra hc; simp [redHitsOf, hc] at hred
  have c5 : ¬(v.heart_rate ≥ th.hr_yellow) := by
    by_contra hc; simp [warnHitsOf, hc] at hwarn
  have c6 : ¬(v.oxygen_saturation ≤ th.spo2_yellow) := by
    by_contra hc; simp [warnHitsOf, hc] at hwarn
  have c7 : ¬(v.bp_systolic ≥ th.sys_yellow ∨ v.bp_diastolic ≥ th.dia_yellow) := by
    by_contra hc; simp [warnHitsOf, hc] at hwarn
  have c8 : ¬(v.temperature ≥ th.temp_yellow_hi ∨ v.temperature ≤ th.temp_yellow_lo) := by
    by_contra hc; simp [warnHitsOf, hc] at hwarn
  have hrawt : rawScoreOf v th rates = trendScoreOf rates := by
    simp [rawScoreOf, c1, c2, c3, c4, c5, c6, c7, c8]
  have hsc : scoreOf v th rates = trendScoreOf rates := by
    rw [scoreOf, hrawt,
      min_eq_right (le_trans (trendScore_le_35 rates) (by norm_num)),
      max_eq_right (trendScore_nonneg rates)]
  refine ⟨hsc, by rw [hsc]; exact trendScore_le_35 rates, ?_, ?_, ?_, ?_⟩ <;>
    unfold levelOf <;>
    rw [hred, hwarn] <;>
    split_ifs with h1 h2 h3 <;>
    simp_all <;>
    try linarith [trendScore_le_35 rates]

/-- C9 witness: vitals below every "normal" threshold with a fast-rising HR
and dropping SpO2 trend — no hits, trend-only score, by the theorem. -/
theorem claim9_trend_only_bounded_witness :
    redHitsOf ⟨80, 120, 80, 98, 37⟩ (patient_thresholds "normal") = 0 ∧
    warnHitsOf ⟨80, 120, 80, 98, 37⟩ (patient_thresholds "normal") = 0 ∧
    (scoreOf ⟨80, 120, 80, 98, 37⟩ (patient_thresholds "normal") ⟨20, 0, -3, 0⟩ =
      trendScoreOf ⟨20, 0, -3, 0⟩ ∧
     scoreOf ⟨80, 120, 80, 98, 37⟩ (patient_thresholds "normal") ⟨20, 0, -3, 0⟩ ≤ 35 ∧
     levelOf ⟨80, 120, 80, 98, 37⟩ (patient_thresholds "normal") ⟨20, 0, -3, 0⟩ ≠ .orange ∧
     levelOf ⟨80, 120, 80, 98, 37⟩ (patient_thresholds "normal") ⟨20, 0, -3, 0⟩ ≠ .red ∧
     (levelOf ⟨80, 120, 80, 98, 37⟩ (patient_thresholds "normal") ⟨20, 0, -3, 0⟩ = .yellow ↔
       scoreOf ⟨80, 120, 80, 98, 37⟩ (patient_thresholds "normal") ⟨20, 0, -3, 0⟩ ≥ 20) ∧
     (levelOf ⟨80, 120, 80, 98, 37⟩ (patient_thresholds "normal") ⟨20, 0, -3, 0⟩ = .green ↔
       scoreOf ⟨80, 120, 80, 98, 37⟩ (patient_thresholds "normal") ⟨20, 0, -3, 0⟩ < 20)) :=
  ⟨by simp [redHitsOf, patient_thresholds]; norm_num,
   by simp [warnHitsOf, patient_thresholds]; norm_num,
   claim9_trend_only_bounded ⟨80, 120, 80, 98, 37⟩ (patient_thresholds "normal")
     ⟨20, 0, -3, 0⟩ (by simp [redHitsOf, patient_thresholds]; norm_num)
     (by simp [warnHitsOf, patient_thresholds]; norm_num)⟩

/-- C10: `RollingWindow.push` in `src/risk_engine.py` treats any falsy
explicit timestamp as absent — `None` and `0.0` both store the clock value
`now`, any nonzero timestamp is stored exactly as passed, and (since the
clock is positive) no entry is ever recorded with timestamp 0. -/
theorem claim10_push_falsy_timestamp (tEpoch : Option ℚ) (now t : ℚ)
    (hnow : 0 < now) :
    pushTimestamp none now = now ∧
    pushTimestamp (some 0) now = now ∧
    (t ≠ 0 → pushTimestamp (some t) now = t) ∧
    pushTimestamp tEpoch now ≠ 0 ∧
    RollingWindow.push defaultMaxlen [] ⟨80, 120, 80, 98, 37⟩ tEpoch now =
      [(pushTimestamp tEpoch now, ⟨80, 120, 80, 98, 37⟩)] := by
  refine ⟨rfl, by simp [pushTimestamp], ?_, ?_, ?_⟩
  · intro ht
    simp [pushTimestamp, ht]
  · cases tEpoch with
    | none => simp [pushTimestamp]; linarith
    | some t2 =>
      simp only [pushTimestamp]
      split_ifs with h0
      · linarith
      · exact h0
  · simp [RollingWindow.push, dequeAppend, defaultMaxlen]

/-- C10 witness: with clock 10, pushing timestamp 0 stores 10 and pushing
timestamp 5 stores 5 and is nonzero, by the theorem. -/
theorem claim10_push_falsy_timestamp_witness :
    (0 : ℚ) < 10 ∧ (5 : ℚ) ≠ 0 ∧
    pushTimestamp (some 0) 10 = 10 ∧
    pushTimestamp (some 5) 10 = 5 ∧
    pushTimestamp (some 5) 10 ≠ 0 :=
  ⟨by norm_num, by norm_num,
   (claim10_push_falsy_timestamp (some 0) 10 5 (by norm_num)).2.1,
   (claim10_push_falsy_timestamp (some 5) 10 5 (by norm_num)).2.2.1 (by norm_num),
   (claim10_push_falsy_timestamp (some 5) 10 5 (by norm_num)).2.2.2.1⟩

end RiskTraj
